import Mathlib

/-!
Verification of the palermo dual-token session service (`jwt/jwt.go`,
`palermo.go`) against its specification.

Modelling conventions:
* The system clock and the entropy source are explicit parameters
  (`now : Int`, Unix seconds; `entropy : Option String`, `none` meaning the
  secure random source failed).
* A signed token is represented symbolically by `SignedToken`: whether the
  string is structurally well formed, the algorithm its header declares, the
  key its HMAC signature verifies under, and the claim set carried by its
  payload segment.  Signature verification succeeds exactly when the token's
  signing key equals the service's secret key.
* JSON (un)marshalling of `sessionClaims` is the function `wireClaims`:
  every field round-trips identically except `Token`, whose tag is `json:"-"`,
  so it is omitted at signing time and can never be populated at parse time.
* Parse errors follow `dgrijalva/jwt-go`: a `*jwt.ValidationError` carrying a
  `uint32` bitmask (`Malformed = 1`, `Unverifiable = 2`, `SignatureInvalid =
  4`, `Expired = 16`, `IssuedAt = 32`).  A failing key function (non-HMAC
  declared algorithm) returns immediately with `Unverifiable`; otherwise the
  claim-validation bits and the signature bit are accumulated.  The `aud` and
  `nbf` claims are never set by this program and `StandardClaims.Valid` lets
  absent claims pass, so they are omitted from the model.
-/

namespace Palermo

/-- Model of `palermo.Session`: timestamps as Unix seconds (`time.Time.Unix`). -/
structure Session where
  ID : String
  UserID : String
  Email : String
  Token : String
  CreatedAt : Int
  UpdatedAt : Int
deriving DecidableEq, Repr

namespace Jwt

/-- Header algorithms relevant to `verifySigningMethod`: the three
`jwt.SigningMethodHMAC` instances, an asymmetric method, and `"none"`. -/
inductive SigningMethod where
  | HS256
  | HS384
  | HS512
  | RS256
  | NoneAlg
deriving DecidableEq, Repr

/-- Whether the method is an instance of `*jwt.SigningMethodHMAC`. -/
def SigningMethod.isHMAC : SigningMethod → Bool
  | .HS256 => true
  | .HS384 => true
  | .HS512 => true
  | .RS256 => false
  | .NoneAlg => false

/-- The subset of `jwt.StandardClaims` this program reads or writes
(`aud`/`nbf` are never set and validate vacuously). -/
structure StandardClaims where
  Id : String
  Issuer : String
  Subject : String
  IssuedAt : Int
  ExpiresAt : Int
deriving DecidableEq, Repr

/-- Model of `jwt.sessionClaims`: standard claims plus the custom session payload.
`Token` is tagged `json:"-"` in the source and never crosses the wire. -/
structure sessionClaims where
  std : StandardClaims
  ID : String
  UserID : String
  Token : String
  Email : String
  CreatedAt : Int
  UpdatedAt : Int
deriving DecidableEq, Repr

/-- The zero value `new(sessionClaims)`. -/
def newSessionClaims : sessionClaims :=
  { std := { Id := "", Issuer := "", Subject := "", IssuedAt := 0, ExpiresAt := 0 }
    ID := "", UserID := "", Token := "", Email := "", CreatedAt := 0, UpdatedAt := 0 }

/-- JSON round trip of `sessionClaims`.  All fields are `omitempty` and
round-trip their values; `Token` is tagged `json:"-"`, so marshalling drops
it and unmarshalling never fills it. -/
def wireClaims (c : sessionClaims) : sessionClaims :=
  { c with Token := "" }

/-- Method `sessionClaims.Session`: rebuilds the `palermo.Session`
(`time.Unix(sc.CreatedAt, 0)` is the identity on Unix seconds here). -/
def sessionClaims.Session (sc : sessionClaims) : Session :=
  { ID := sc.ID
    Email := sc.Email
    UserID := sc.UserID
    Token := sc.Token
    CreatedAt := sc.CreatedAt
    UpdatedAt := sc.UpdatedAt }

/-- A signed JWT string, symbolically. -/
structure SignedToken where
  wellFormed : Bool
  alg : SigningMethod
  key : String
  payload : sessionClaims
deriving DecidableEq, Repr

/-- Model of `palermo.SessionCredentials`. -/
structure SessionCredentials where
  ValidationToken : SignedToken
  AuthToken : SignedToken
deriving DecidableEq, Repr

/-- Constant `jwt.ValidationErrorMalformed` (1 << 0). -/
def ValidationErrorMalformed : Nat := 1

/-- Constant `jwt.ValidationErrorUnverifiable` (1 << 1). -/
def ValidationErrorUnverifiable : Nat := 2

/-- Constant `jwt.ValidationErrorSignatureInvalid` (1 << 2). -/
def ValidationErrorSignatureInvalid : Nat := 4

/-- Constant `jwt.ValidationErrorExpired` (1 << 4). -/
def ValidationErrorExpired : Nat := 16

/-- Constant `jwt.ValidationErrorIssuedAt` (1 << 5). -/
def ValidationErrorIssuedAt : Nat := 32

/-- A Go `error` as this package produces them: a `*jwt.ValidationError`
with its `Errors uint32` bitmask, or the entropy-source failure from
`crypto/rand.Read`. -/
inductive GoError where
  | validation (bits : Nat)
  | entropy
deriving DecidableEq, Repr

/-- All ones of a `uint32`, for Go's `^x` complement. -/
def uint32Mask : Nat := 4294967295

/-- Predicate `jwt.isTokenExpired`: a `*jwt.ValidationError` whose bitmask holds
nothing outside `ValidationErrorExpired` (`e.Errors & ^Expired == 0`). -/
def isTokenExpired : GoError → Bool
  | .validation bits => bits &&& (uint32Mask ^^^ ValidationErrorExpired) == 0
  | .entropy => false

/-- The bitmask produced by `StandardClaims.Valid` at time `now` for the
claims this program sets: `exp` fails when present (non-zero) and strictly
past; `iat` fails when present and strictly in the future. -/
def claimsValidBits (now : Int) (c : sessionClaims) : Nat :=
  (if c.std.ExpiresAt ≠ 0 ∧ c.std.ExpiresAt < now then ValidationErrorExpired else 0) |||
    (if c.std.IssuedAt ≠ 0 ∧ now < c.std.IssuedAt then ValidationErrorIssuedAt else 0)

/-- The five standard claim fields compared by the Consistency Validator,
in the order the Go code checks them. -/
inductive ClaimField where
  | jti
  | iat
  | exp
  | sub
  | iss
deriving DecidableEq, Repr

/-- Error type covering everything `Session`/`RefreshSession` return. -/
inductive SessionError where
  | parse (e : GoError)
  | mismatch (f : ClaimField)
deriving DecidableEq, Repr

/-- Model of `jwt.SessionService`: immutable secret key and max age (seconds). -/
structure SessionService where
  SecretKey : String
  MaxAge : Int
deriving DecidableEq, Repr

/-- Function `jwt.SessionService.tokenClaims`, i.e. `jwt.ParseWithClaims` with
`verifySigningMethod` as key function.  A structurally malformed string
yields `Malformed` with the untouched zero claims; a non-HMAC declared
algorithm makes the key function fail, returning `Unverifiable`
immediately; otherwise the claim-validation bits and the signature bit are
accumulated, and the decoded claims are returned in every case. -/
def SessionService.tokenClaims (uss : SessionService) (now : Int) (t : SignedToken) :
    sessionClaims × Option GoError :=
  if ¬ t.wellFormed then
    (newSessionClaims, some (.validation ValidationErrorMalformed))
  else
    let claims := wireClaims t.payload
    if ¬ t.alg.isHMAC then
      (claims, some (.validation ValidationErrorUnverifiable))
    else
      let bits := claimsValidBits now claims |||
        (if t.key ≠ uss.SecretKey then ValidationErrorSignatureInvalid else 0)
      (claims, if bits = 0 then none else some (.validation bits))

/-- Function `jwt.SessionService.parseTokens`: parses both tokens; the returned
error is the auth token's when that parse failed, otherwise the validation
token's. -/
def SessionService.parseTokens (uss : SessionService) (now : Int)
    (authToken valToken : SignedToken) :
    sessionClaims × sessionClaims × Option GoError :=
  let a := uss.tokenClaims now authToken
  let v := uss.tokenClaims now valToken
  let err := match a.2 with
    | some e => some e
    | none => v.2
  (a.1, v.1, err)

/-- Function `jwt.SessionService.validateClaims`: first mismatch among
`jti, iat, exp, sub, iss`, in that order. -/
def validateClaims (lhs rhs : sessionClaims) : Option ClaimField :=
  if lhs.std.Id ≠ rhs.std.Id then some .jti
  else if lhs.std.IssuedAt ≠ rhs.std.IssuedAt then some .iat
  else if lhs.std.ExpiresAt ≠ rhs.std.ExpiresAt then some .exp
  else if lhs.std.Subject ≠ rhs.std.Subject then some .sub
  else if lhs.std.Issuer ≠ rhs.std.Issuer then some .iss
  else none

/-- Operation `jwt.SessionService.Session`. -/
def SessionService.Session (uss : SessionService) (now : Int)
    (c : SessionCredentials) : Except SessionError Palermo.Session :=
  let r := uss.parseTokens now c.AuthToken c.ValidationToken
  match r.2.2 with
  | some e => .error (.parse e)
  | none =>
    match validateClaims r.2.1 r.1 with
    | some f => .error (.mismatch f)
    | none => .ok r.1.Session

/-- Tail of `jwt.SessionService.RefreshSession` after the expiry-tolerance
check: consistency validation, then the rebuilt session with `UpdatedAt`
set to the current time. -/
def refreshFinish (valClaims authClaims : sessionClaims) (now : Int) :
    Except SessionError Palermo.Session :=
  match validateClaims valClaims authClaims with
  | some f => .error (.mismatch f)
  | none => .ok { authClaims.Session with UpdatedAt := now }

/-- Operation `jwt.SessionService.RefreshSession`. -/
def SessionService.RefreshSession (uss : SessionService) (now : Int)
    (c : SessionCredentials) : Except SessionError Palermo.Session :=
  let r := uss.parseTokens now c.AuthToken c.ValidationToken
  match r.2.2 with
  | some e =>
    if ¬ isTokenExpired e then .error (.parse e)
    else refreshFinish r.2.1 r.1 now
  | none => refreshFinish r.2.1 r.1 now

/-- Function `jwt.SessionService.tokenString`: sign the marshalled claims with
HMAC-SHA256 under the service's secret key. -/
def SessionService.tokenString (uss : SessionService) (claims : sessionClaims) :
    SignedToken :=
  { wellFormed := true, alg := .HS256, key := uss.SecretKey, payload := wireClaims claims }

/-- Function `jwt.SessionService.sessionCredentials`: mint the validation token
(standard claims only) and the auth token (standard claims plus the full
session payload), sharing `jti = entropy`, `iat = now`,
`exp = now + MaxAge`, `sub = us.Email`, `iss = us.Token`. -/
def SessionService.sessionCredentials (uss : SessionService)
    (entropy : Option String) (now : Int) (us : Palermo.Session) :
    Except GoError SessionCredentials :=
  match entropy with
  | none => .error .entropy
  | some id =>
    let iat := now
    let exp := now + uss.MaxAge
    let std : StandardClaims :=
      { Id := id, Issuer := us.Token, Subject := us.Email, IssuedAt := iat, ExpiresAt := exp }
    let validationToken := uss.tokenString { newSessionClaims with std := std }
    let authToken := uss.tokenString
      { std := std, ID := us.ID, UserID := us.UserID, Token := us.Token,
        Email := us.Email, CreatedAt := us.CreatedAt, UpdatedAt := us.UpdatedAt }
    .ok { ValidationToken := validationToken, AuthToken := authToken }

/-- Operation `jwt.SessionService.CreateSession`. -/
def SessionService.CreateSession (uss : SessionService) (entropy : Option String)
    (now : Int) (us : Palermo.Session) : Except GoError SessionCredentials :=
  uss.sessionCredentials entropy now us

/-- Operation `jwt.SessionService.UpdateSession`. -/
def SessionService.UpdateSession (uss : SessionService) (entropy : Option String)
    (now : Int) (us : Palermo.Session) : Except GoError SessionCredentials :=
  uss.sessionCredentials entropy now us


/-- A token is expired at `now` in the sense of `StandardClaims.Valid`. -/
def tokenExpiredAt (now : Int) (t : SignedToken) : Prop :=
  t.payload.std.ExpiresAt ≠ 0 ∧ t.payload.std.ExpiresAt < now

instance (now : Int) (t : SignedToken) : Decidable (tokenExpiredAt now t) :=
  inferInstanceAs (Decidable (_ ∧ _))

/-- Projections of the JSON round trip: `std` is untouched. -/
theorem wireClaims_std (c : sessionClaims) : (wireClaims c).std = c.std := rfl

/-- Projections of the JSON round trip: `ID` is untouched. -/
theorem wireClaims_ID (c : sessionClaims) : (wireClaims c).ID = c.ID := rfl

/-- Projections of the JSON round trip: `UserID` is untouched. -/
theorem wireClaims_UserID (c : sessionClaims) : (wireClaims c).UserID = c.UserID := rfl

/-- Projections of the JSON round trip: `Email` is untouched. -/
theorem wireClaims_Email (c : sessionClaims) : (wireClaims c).Email = c.Email := rfl

/-- Projections of the JSON round trip: `CreatedAt` is untouched. -/
theorem wireClaims_CreatedAt (c : sessionClaims) : (wireClaims c).CreatedAt = c.CreatedAt := rfl

/-- Projections of the JSON round trip: `UpdatedAt` is untouched. -/
theorem wireClaims_UpdatedAt (c : sessionClaims) : (wireClaims c).UpdatedAt = c.UpdatedAt := rfl

/-- Projections of the JSON round trip: `Token` is dropped. -/
theorem wireClaims_Token (c : sessionClaims) : (wireClaims c).Token = "" := rfl

/-- A well-formed HMAC token signed with the service key, neither expired
nor issued in the future, parses cleanly to its decoded payload. -/
theorem tokenClaims_clean (uss : SessionService) (now : Int) (t : SignedToken)
    (hw : t.wellFormed = true) (ha : t.alg.isHMAC = true) (hk : t.key = uss.SecretKey)
    (hexp : ¬ tokenExpiredAt now t)
    (hiat : t.payload.std.IssuedAt ≤ now) :
    uss.tokenClaims now t = (wireClaims t.payload, none) := by
  rw [tokenExpiredAt] at hexp
  simp [SessionService.tokenClaims, hw, ha, hk, claimsValidBits, wireClaims_std, hexp,
    not_lt.mpr hiat]

/-- A well-formed HMAC token signed with the service key, issued in the
past but expired, parses to its decoded payload plus an error whose bitmask
is exactly `ValidationErrorExpired`. -/
theorem tokenClaims_expired (uss : SessionService) (now : Int) (t : SignedToken)
    (hw : t.wellFormed = true) (ha : t.alg.isHMAC = true) (hk : t.key = uss.SecretKey)
    (hexp : tokenExpiredAt now t)
    (hiat : t.payload.std.IssuedAt ≤ now) :
    uss.tokenClaims now t = (wireClaims t.payload, some (.validation ValidationErrorExpired)) := by
  rw [tokenExpiredAt] at hexp
  simp [SessionService.tokenClaims, hw, ha, hk, claimsValidBits, wireClaims_std, hexp,
    not_lt.mpr hiat, ValidationErrorExpired]

/-- Claim sets sharing their standard fields pass the consistency check. -/
theorem validateClaims_of_std_eq (lhs rhs : sessionClaims) (h : lhs.std = rhs.std) :
    validateClaims lhs rhs = none := by
  simp [validateClaims, h]

/-- Concrete service used by the witnesses and counterexamples below. -/
def svc1 : SessionService := { SecretKey := "k", MaxAge := 50 }

/-- Concrete session used by the witnesses and counterexamples below. -/
def s1 : Session :=
  { ID := "i", UserID := "u", Email := "e", Token := "t", CreatedAt := 5, UpdatedAt := 6 }

/-- Standard claims of the concrete hand-built tokens (expired at 50). -/
def stdX : StandardClaims :=
  { Id := "jid", Issuer := "t", Subject := "e", IssuedAt := 1, ExpiresAt := 10 }

/-- Wire payload of a concrete auth token for `s1`. -/
def authPayloadX : sessionClaims :=
  { std := stdX, ID := "i", UserID := "u", Token := "", Email := "e",
    CreatedAt := 5, UpdatedAt := 6 }

/-- Wire payload of a concrete validation token matching `authPayloadX`. -/
def valPayloadX : sessionClaims :=
  { std := stdX, ID := "", UserID := "", Token := "", Email := "",
    CreatedAt := 0, UpdatedAt := 0 }

/-- Concrete auth token: well formed, HS256, signed with the service key. -/
def authTokX : SignedToken :=
  { wellFormed := true, alg := .HS256, key := "k", payload := authPayloadX }

/-- Concrete validation token matching `authTokX`. -/
def valTokX : SignedToken :=
  { wellFormed := true, alg := .HS256, key := "k", payload := valPayloadX }

/-- Validation token signed with a wrong key, claims copied from `authTokX`. -/
def c2valTok : SignedToken :=
  { wellFormed := true, alg := .HS256, key := "x", payload := valPayloadX }

/-- Credential pair: expired auth token, wrong-key validation token. -/
def c2pair : SessionCredentials := { ValidationToken := c2valTok, AuthToken := authTokX }

/-- Validation token declaring algorithm "none", claims copied from `authTokX`. -/
def c4valTok : SignedToken :=
  { wellFormed := true, alg := .NoneAlg, key := "k", payload := valPayloadX }

/-- Credential pair: expired auth token, alg-"none" validation token. -/
def c4pair : SessionCredentials := { ValidationToken := c4valTok, AuthToken := authTokX }

/-- Auth token whose embedded `updated_at` (100) lies after the refresh time. -/
def c3authTok : SignedToken :=
  { wellFormed := true, alg := .HS256, key := "k",
    payload := { std := stdX, ID := "i", UserID := "u", Token := "", Email := "e",
                 CreatedAt := 5, UpdatedAt := 100 } }

/-- Consistent, well-signed, expired pair with a future embedded `updated_at`. -/
def c3pair : SessionCredentials := { ValidationToken := valTokX, AuthToken := c3authTok }

/-- Standard claims of `stdX` with a different `jti`. -/
def stdOther : StandardClaims := { stdX with Id := "OTHER" }

/-- Validation-token payload carrying `stdOther`. -/
def valPayloadOther : sessionClaims := { valPayloadX with std := stdOther }

/-- Expired pair whose validation token carries a different `jti`. -/
def c5pair : SessionCredentials :=
  { ValidationToken := { wellFormed := true, alg := .HS256, key := "k", payload := valPayloadOther },
    AuthToken := authTokX }

/-- C9: `CreateSession` and `UpdateSession` compute the identical function:
given the same entropy and clock inputs they produce the same credential
pair and the same error behaviour. -/
theorem c9_create_eq_update (uss : SessionService) (entropy : Option String)
    (now : Int) (us : Session) :
    uss.CreateSession entropy now us = uss.UpdateSession entropy now us := rfl

/-- C7: the Consistency Validator compares `jti`, `iat`, `exp`, `sub`, `iss`
in exactly that fixed order, returns an error naming the first mismatched
field, and returns ok if and only if all five fields agree. -/
theorem c7_validateClaims_behaviour (l r : sessionClaims) :
    (validateClaims l r = none ↔
      (l.std.Id = r.std.Id ∧ l.std.IssuedAt = r.std.IssuedAt ∧
       l.std.ExpiresAt = r.std.ExpiresAt ∧ l.std.Subject = r.std.Subject ∧
       l.std.Issuer = r.std.Issuer)) ∧
    (validateClaims l r = some .jti ↔ l.std.Id ≠ r.std.Id) ∧
    (validateClaims l r = some .iat ↔
      (l.std.Id = r.std.Id ∧ l.std.IssuedAt ≠ r.std.IssuedAt)) ∧
    (validateClaims l r = some .exp ↔
      (l.std.Id = r.std.Id ∧ l.std.IssuedAt = r.std.IssuedAt ∧
       l.std.ExpiresAt ≠ r.std.ExpiresAt)) ∧
    (validateClaims l r = some .sub ↔
      (l.std.Id = r.std.Id ∧ l.std.IssuedAt = r.std.IssuedAt ∧
       l.std.ExpiresAt = r.std.ExpiresAt ∧ l.std.Subject ≠ r.std.Subject)) ∧
    (validateClaims l r = some .iss ↔
      (l.std.Id = r.std.Id ∧ l.std.IssuedAt = r.std.IssuedAt ∧
       l.std.ExpiresAt = r.std.ExpiresAt ∧ l.std.Subject = r.std.Subject ∧
       l.std.Issuer ≠ r.std.Issuer)) := by
  unfold validateClaims
  split_ifs <;> simp_all

/-- C8: a token that passes structural and signature verification but whose
`exp` has passed parses to the fully decoded claim set together with an
error tagged exactly `ValidationErrorExpired`, which `isTokenExpired`
recognises, so callers can distinguish merely-expired tokens from
structurally invalid ones. -/
theorem c8_expired_parse_keeps_claims (uss : SessionService) (now : Int)
    (t : SignedToken) (hw : t.wellFormed = true) (ha : t.alg.isHMAC = true)
    (hk : t.key = uss.SecretKey) (hiat : t.payload.std.IssuedAt ≤ now)
    (hexp : tokenExpiredAt now t) :
    uss.tokenClaims now t = (wireClaims t.payload, some (.validation ValidationErrorExpired)) ∧
    isTokenExpired (.validation ValidationErrorExpired) = true := by
  exact ⟨tokenClaims_expired uss now t hw ha hk hexp hiat, rfl⟩

/-- Witness for C8 at the concrete expired token `authTokX`. -/
theorem c8_expired_parse_keeps_claims_witness :
    svc1.tokenClaims 50 authTokX =
      (wireClaims authTokX.payload, some (.validation ValidationErrorExpired)) ∧
    isTokenExpired (.validation ValidationErrorExpired) = true :=
  c8_expired_parse_keeps_claims svc1 50 authTokX rfl rfl rfl (by decide) (by decide)

/-- C10: when the auth token's parse fails, `parseTokens` returns the auth
token's error and discards the validation token's; consequently
`RefreshSession`'s expiry-tolerance test is applied only to the auth
token's error. -/
theorem c10_auth_error_precedence (uss : SessionService) (now : Int)
    (ta tv : SignedToken) (ea ev : GoError)
    (hA : (uss.tokenClaims now ta).2 = some ea)
    (_hV : (uss.tokenClaims now tv).2 = some ev) :
    (uss.parseTokens now ta tv).2.2 = some ea ∧
    uss.RefreshSession now { ValidationToken := tv, AuthToken := ta } =
      (if isTokenExpired ea then
        refreshFinish (uss.tokenClaims now tv).1 (uss.tokenClaims now ta).1 now
       else .error (.parse ea)) := by
  constructor
  · simp only [SessionService.parseTokens, hA]
  · simp only [SessionService.RefreshSession, SessionService.parseTokens, hA]
    cases h : isTokenExpired ea <;> simp [h]

/-- Witness for C10: auth token expired (bits 16), validation token with a
wrong key (bits 20); both parses fail and the auth error wins. -/
theorem c10_auth_error_precedence_witness :
    (svc1.parseTokens 50 authTokX c2valTok).2.2 = some (.validation ValidationErrorExpired) ∧
    svc1.RefreshSession 50 { ValidationToken := c2valTok, AuthToken := authTokX } =
      (if isTokenExpired (.validation ValidationErrorExpired) then
        refreshFinish (svc1.tokenClaims 50 c2valTok).1 (svc1.tokenClaims 50 authTokX).1 50
       else .error (.parse (.validation ValidationErrorExpired))) :=
  c10_auth_error_precedence svc1 50 authTokX c2valTok
    (.validation ValidationErrorExpired)
    (.validation (ValidationErrorExpired ||| ValidationErrorSignatureInvalid)) rfl rfl


/-- C1 (amended): for every session `s`, `Session(CreateSession(s))` at a
time when the minted pair is not yet expired returns a session equal to `s`
in `id`, `user_id` and `email`, but with an empty `token` field: the token
value is excluded from the auth token payload (`json:"-"`) and survives
only as the `iss` claim, which `sessionClaims.Session` does not read. -/
theorem c1_round_trip_amended (uss : SessionService) (id : String) (mint now : Int)
    (us : Session)
    (hexp : ¬ (mint + uss.MaxAge ≠ 0 ∧ mint + uss.MaxAge < now))
    (hiat : mint ≤ now) :
    (uss.CreateSession (some id) mint us).toOption.map (uss.Session now) =
      some (.ok { ID := us.ID, UserID := us.UserID, Email := us.Email, Token := "",
                  CreatedAt := us.CreatedAt, UpdatedAt := us.UpdatedAt }) := by
  simp only [SessionService.CreateSession, SessionService.sessionCredentials,
    SessionService.tokenString, Except.toOption, Option.map]
  simp only [SessionService.Session, SessionService.parseTokens, SessionService.tokenClaims,
    wireClaims, claimsValidBits, validateClaims, sessionClaims.Session]
  simp [SigningMethod.isHMAC, hexp, not_lt.mpr hiat]

/-- Witness for C1 (amended) at `svc1` and `s1`, minting and reading at 100. -/
theorem c1_round_trip_amended_witness :
    (svc1.CreateSession (some "jid") 100 s1).toOption.map (svc1.Session 100) =
      some (.ok { ID := "i", UserID := "u", Email := "e", Token := "",
                  CreatedAt := 5, UpdatedAt := 6 }) :=
  c1_round_trip_amended svc1 "jid" 100 100 s1 (by decide) (by decide)

/-- C1 counterexample: the claim as stated requires the reconstructed
session's `token` to equal `s.token`; at `svc1`/`s1` the reconstruction
returns an empty token while `s1.Token = "t"`. -/
theorem c1_claim_counterexample :
    (svc1.CreateSession (some "jid") 100 s1).toOption.map (svc1.Session 100) =
      some (.ok { ID := "i", UserID := "u", Email := "e", Token := "",
                  CreatedAt := 5, UpdatedAt := 6 }) ∧
    s1.Token = "t" ∧ ("t" : String) ≠ "" := ⟨rfl, rfl, by decide⟩

/-- C2 (code bug): an expired auth token together with a validation token
signed under a different key: the validation token's parse fails with
`SignatureInvalid ||| Expired` (not an expiry-only failure), yet
`RefreshSession` discards that error and returns a refreshed session,
where the claim requires the error to be returned with no session. -/
theorem c2_refresh_accepts_bad_signature :
    (svc1.tokenClaims 50 c2valTok).2 =
      some (.validation (ValidationErrorExpired ||| ValidationErrorSignatureInvalid)) ∧
    isTokenExpired
      (.validation (ValidationErrorExpired ||| ValidationErrorSignatureInvalid)) = false ∧
    svc1.RefreshSession 50 c2pair =
      .ok { ID := "i", UserID := "u", Email := "e", Token := "",
            CreatedAt := 5, UpdatedAt := 50 } := ⟨rfl, rfl, rfl⟩

/-- C4 (code bug): a validation token declaring algorithm "none" with
claims copied from the expired auth token: its parse fails with
`Unverifiable`, `Session` still fails (with the auth token's expiry error),
but `RefreshSession` succeeds, where the claim requires both operations
to fail. -/
theorem c4_refresh_accepts_none_alg :
    (svc1.tokenClaims 50 c4valTok).2 = some (.validation ValidationErrorUnverifiable) ∧
    isTokenExpired (.validation ValidationErrorUnverifiable) = false ∧
    svc1.Session 50 c4pair = .error (.parse (.validation ValidationErrorExpired)) ∧
    svc1.RefreshSession 50 c4pair =
      .ok { ID := "i", UserID := "u", Email := "e", Token := "",
            CreatedAt := 5, UpdatedAt := 50 } := ⟨rfl, rfl, rfl, rfl⟩

/-- C3 (amended): a structurally valid, mutually consistent pair, issued in
the past, whose `exp` has passed, fails `Session` with the expiry error
while `RefreshSession` succeeds, returning the reconstructed session with
`updated_at` set to the refresh time — strictly later than the embedded
`updated_at`, which the amendment requires to precede the refresh time —
and `user_id`/`email` unchanged. -/
theorem c3_expired_pair_behaviour (uss : SessionService) (now : Int)
    (ta tv : SignedToken)
    (hwa : ta.wellFormed = true) (hwv : tv.wellFormed = true)
    (haa : ta.alg.isHMAC = true) (hav : tv.alg.isHMAC = true)
    (hka : ta.key = uss.SecretKey) (hkv : tv.key = uss.SecretKey)
    (hstd : tv.payload.std = ta.payload.std)
    (hexp : tokenExpiredAt now ta)
    (hiat : ta.payload.std.IssuedAt ≤ now)
    (hup : ta.payload.UpdatedAt < now) :
    uss.Session now { ValidationToken := tv, AuthToken := ta } =
      .error (.parse (.validation ValidationErrorExpired)) ∧
    uss.RefreshSession now { ValidationToken := tv, AuthToken := ta } =
      .ok { ID := ta.payload.ID, UserID := ta.payload.UserID, Email := ta.payload.Email,
            Token := "", CreatedAt := ta.payload.CreatedAt, UpdatedAt := now } ∧
    ta.payload.UpdatedAt < now := by
  have hA := tokenClaims_expired uss now ta hwa haa hka hexp hiat
  have hexpv : tokenExpiredAt now tv := by
    rw [tokenExpiredAt, hstd]; exact hexp
  have hiatv : tv.payload.std.IssuedAt ≤ now := by rw [hstd]; exact hiat
  have hV := tokenClaims_expired uss now tv hwv hav hkv hexpv hiatv
  have hcons : validateClaims (wireClaims tv.payload) (wireClaims ta.payload) = none :=
    validateClaims_of_std_eq _ _ (by rw [wireClaims_std, wireClaims_std, hstd])
  refine ⟨?_, ?_, hup⟩
  · simp only [SessionService.Session, SessionService.parseTokens, hA, hV]
  · simp only [SessionService.RefreshSession, SessionService.parseTokens, hA, hV]
    have htol : isTokenExpired (.validation ValidationErrorExpired) = true := rfl
    simp only [htol, Bool.not_true, refreshFinish, hcons, sessionClaims.Session,
      wireClaims_ID, wireClaims_UserID, wireClaims_Email, wireClaims_CreatedAt,
      wireClaims_UpdatedAt, wireClaims_Token]
    simp

/-- Witness for C3 (amended) at the concrete expired pair
`(valTokX, authTokX)` refreshed at 50. -/
theorem c3_expired_pair_behaviour_witness :
    svc1.Session 50 { ValidationToken := valTokX, AuthToken := authTokX } =
      .error (.parse (.validation ValidationErrorExpired)) ∧
    svc1.RefreshSession 50 { ValidationToken := valTokX, AuthToken := authTokX } =
      .ok { ID := "i", UserID := "u", Email := "e", Token := "",
            CreatedAt := 5, UpdatedAt := 50 } ∧
    authTokX.payload.UpdatedAt < 50 :=
  c3_expired_pair_behaviour svc1 50 authTokX valTokX rfl rfl rfl rfl rfl rfl rfl
    (by decide) (by decide) (by decide)

/-- C3 counterexample: the claim as stated promises `updated_at` strictly
later than the embedded `updated_at` for every consistent expired pair; on
`c3pair` (embedded `updated_at` 100, refresh time 50) the refresh succeeds
but the returned `updated_at` is not later. -/
theorem c3_claim_counterexample :
    svc1.Session 50 c3pair = .error (.parse (.validation ValidationErrorExpired)) ∧
    svc1.RefreshSession 50 c3pair =
      .ok { ID := "i", UserID := "u", Email := "e", Token := "",
            CreatedAt := 5, UpdatedAt := 50 } ∧
    ¬ (c3pair.AuthToken.payload.UpdatedAt < (50 : Int)) := ⟨rfl, rfl, by decide⟩

/-- C5 (amended): for a pair of well-formed HMAC tokens signed with the
service key and issued in the past, `Session` checks parse errors first:
if either token was expired it fails with the expiry error without running
the Consistency Validator; only when both tokens parse cleanly does the
validator run, reporting a mismatch as a credential-mismatch error naming
the field. -/
theorem c5_session_order_amended (uss : SessionService) (now : Int)
    (ta tv : SignedToken)
    (hwa : ta.wellFormed = true) (hwv : tv.wellFormed = true)
    (haa : ta.alg.isHMAC = true) (hav : tv.alg.isHMAC = true)
    (hka : ta.key = uss.SecretKey) (hkv : tv.key = uss.SecretKey)
    (hiata : ta.payload.std.IssuedAt ≤ now)
    (hiatv : tv.payload.std.IssuedAt ≤ now) :
    ((tokenExpiredAt now ta ∨ tokenExpiredAt now tv) →
      uss.Session now { ValidationToken := tv, AuthToken := ta } =
        .error (.parse (.validation ValidationErrorExpired))) ∧
    (¬ tokenExpiredAt now ta → ¬ tokenExpiredAt now tv →
      uss.Session now { ValidationToken := tv, AuthToken := ta } =
        (match validateClaims (wireClaims tv.payload) (wireClaims ta.payload) with
         | some f => .error (.mismatch f)
         | none => .ok (wireClaims ta.payload).Session)) := by
  constructor
  · intro hor
    rcases Decidable.em (tokenExpiredAt now ta) with hta | hta
    · have hA := tokenClaims_expired uss now ta hwa haa hka hta hiata
      simp only [SessionService.Session, SessionService.parseTokens, hA]
    · have htv : tokenExpiredAt now tv := hor.resolve_left hta
      have hA := tokenClaims_clean uss now ta hwa haa hka hta hiata
      have hV := tokenClaims_expired uss now tv hwv hav hkv htv hiatv
      simp only [SessionService.Session, SessionService.parseTokens, hA, hV]
  · intro hta htv
    have hA := tokenClaims_clean uss now ta hwa haa hka hta hiata
    have hV := tokenClaims_clean uss now tv hwv hav hkv htv hiatv
    simp only [SessionService.Session, SessionService.parseTokens, hA, hV]

/-- Witness for C5 (amended): the expired, mismatched pair `c5pair` makes
the first branch fire at refresh time 50. -/
theorem c5_session_order_amended_witness :
    svc1.Session 50 c5pair = .error (.parse (.validation ValidationErrorExpired)) :=
  (c5_session_order_amended svc1 50 authTokX c5pair.ValidationToken
      rfl rfl rfl rfl rfl rfl (by decide) (by decide)).1 (Or.inl (by decide))

/-- C5 counterexample: on the expired pair `c5pair`, whose claim sets
mismatch on `jti`, `Session` reports the expiry error, not the
credential-mismatch error the claim requires for mismatched claim sets. -/
theorem c5_claim_counterexample :
    svc1.Session 50 c5pair = .error (.parse (.validation ValidationErrorExpired)) ∧
    validateClaims (wireClaims c5pair.ValidationToken.payload)
      (wireClaims c5pair.AuthToken.payload) = some .jti := ⟨rfl, rfl⟩

/-- C6 (amended): the pair minted by `CreateSession` (equally
`UpdateSession`) consists of two well-formed HS256 tokens signed with the
service key; both payloads share `jti = id`, `iat = now`,
`exp = now + MaxAge`, `sub = us.Email` and `iss = us.Token`; the validation
token carries no session payload fields, and the auth token carries the
session payload except the `token` field, which is dropped by its
`json:"-"` tag and survives only as the `iss` claim. -/
theorem c6_minted_invariants (uss : SessionService) (id : String) (now : Int)
    (us : Session) :
    uss.CreateSession (some id) now us = .ok
      { ValidationToken :=
          { wellFormed := true, alg := .HS256, key := uss.SecretKey,
            payload :=
              { std := { Id := id, Issuer := us.Token, Subject := us.Email,
                         IssuedAt := now, ExpiresAt := now + uss.MaxAge },
                ID := "", UserID := "", Token := "", Email := "",
                CreatedAt := 0, UpdatedAt := 0 } },
        AuthToken :=
          { wellFormed := true, alg := .HS256, key := uss.SecretKey,
            payload :=
              { std := { Id := id, Issuer := us.Token, Subject := us.Email,
                         IssuedAt := now, ExpiresAt := now + uss.MaxAge },
                ID := us.ID, UserID := us.UserID, Token := "", Email := us.Email,
                CreatedAt := us.CreatedAt, UpdatedAt := us.UpdatedAt } } } ∧
    uss.UpdateSession (some id) now us = uss.CreateSession (some id) now us :=
  ⟨rfl, rfl⟩

/-- C6 counterexample: the claim as stated requires the auth token to carry
the full session payload; the auth token minted for `s1` carries an empty
`token` field although `s1.Token = "t"`. -/
theorem c6_claim_counterexample :
    (svc1.CreateSession (some "jid") 100 s1).toOption.map
        (fun cr => cr.AuthToken.payload.Token) = some "" ∧
    s1.Token = "t" ∧ ("t" : String) ≠ "" := ⟨rfl, rfl, by decide⟩

end Jwt

end Palermo
